import Mathlib

/-!
Verification of the progress-bridging download flow of a Telegram media
downloader bot (`src/bot.py`), as a shallow embedding in Lean.

Conventions of the embedding:
- Wall-clock times and byte counts are rationals (`ℚ`), standing in for
  Python floats; no floating-point rounding is relevant to the claims.
- A numeric entry of a progress dictionary is `Option (Option ℚ)`:
  the outer `Option` distinguishes a missing key from a present one (the
  two behave differently under Python's `d.get(key, default)`), the inner
  `Option` is the Python value itself (`none` = Python `None`).
  String-valued info fields merge "key absent" and "value None" into a
  single `Option.none`, as no claim distinguishes them.
- Code that can raise is modelled in `Except`; a `try/except` block is a
  `match` on the `Except` value.
- External collaborators (the yt-dlp extractor/downloader, the Telegram
  client, the filesystem) are oracles: their outcomes are inputs of the
  embedded handler, and the calls the handler makes to them are recorded
  in an `Action` trace.
-/

namespace DownloaderBot

/-- A Python numeric value: `none` is Python `None`, `some q` a number. -/
abbrev PyNum := Option ℚ

/-- Python `d.get(key, default)` for a numeric dictionary entry:
a missing key yields the default, a present key yields its value
(which may itself be `None`). -/
def dictGet (field : Option PyNum) (dflt : ℚ) : PyNum :=
  match field with
  | none => some dflt
  | some v => v

/-- Python truthiness of a numeric value: `None` and `0` are falsy. -/
def truthy : PyNum → Bool
  | none => false
  | some q => q != 0

/-- Python `a or b`: `a` when `a` is truthy, otherwise `b`. -/
def pyOr (a b : PyNum) : PyNum := if truthy a then a else b

/-- Python `float(v)`: raises (`TypeError`) on `None`. -/
def pyFloat : PyNum → Except Unit ℚ
  | none => Except.error ()
  | some q => Except.ok q

/-- Python float division: raises `ZeroDivisionError` on a zero denominator. -/
def pyDiv (a b : ℚ) : Except Unit ℚ :=
  if b = 0 then Except.error () else Except.ok (a / b)

/-- Python `int(q)` on a float: truncation toward zero. -/
def pyTrunc (q : ℚ) : ℤ := if 0 ≤ q then ⌊q⌋ else ⌈q⌉

/-- Python string repetition `c * n`: empty for `n ≤ 0`. -/
def pyRepeat (c : Char) (n : ℤ) : String := String.mk (List.replicate n.toNat c)

/-- Python `s.strip()`: drop whitespace from both ends. -/
def pyStrip (s : String) : String :=
  String.mk (((s.data.dropWhile Char.isWhitespace).reverse.dropWhile
    Char.isWhitespace).reverse)

/-- The backtick character (code point 96), one of the three Markdown
control characters stripped by the sanitiser. -/
def backquoteChar : Char := Char.ofNat 96

/-- The `status` entry of a yt-dlp progress dictionary. -/
inductive DlStatus where
  | downloading
  | finished
  | other
deriving DecidableEq

/-- A yt-dlp progress dictionary, as consumed by
`DownloadProgress.progress_hook` / `_update_message` (src/bot.py:34-62).
Numeric entries follow the missing-key/`None`/number convention of
`Option PyNum`; the three preformatted strings model
`_percent_str` / `_speed_str` / `_eta_str` (absent key = `none`). -/
structure ProgressEvent where
  status : DlStatus
  downloaded_bytes : Option PyNum
  total_bytes : Option PyNum
  total_bytes_estimate : Option PyNum
  percent_str : Option String
  speed_str : Option String
  eta_str : Option String
deriving DecidableEq

/-- The fraction computed at src/bot.py:54:
`float(d.get('downloaded_bytes', 0)) / float(d.get('total_bytes', 1) or
d.get('total_bytes_estimate', 1))`, with the raises it can produce. -/
def pctOf (e : ProgressEvent) : Except Unit ℚ := do
  let dl ← pyFloat (dictGet e.downloaded_bytes 0)
  let den ← pyFloat (pyOr (dictGet e.total_bytes 1) (dictGet e.total_bytes_estimate 1))
  pyDiv dl den

/-- The block-character bar of src/bot.py:55-58: `bars = 15`,
`filled = int(bars * pct)`, `empty = bars - filled`,
`bar = '▓' * filled + '░' * empty`. -/
def barOf (pct : ℚ) : String :=
  pyRepeat '▓' (pyTrunc (15 * pct)) ++ pyRepeat '░' (15 - pyTrunc (15 * pct))

/-- The `try` body at src/bot.py:53-59: the bar together with the
percentage string `f"{int(pct * 100)}%"`. -/
def computeBar (e : ProgressEvent) : Except Unit (String × String) := do
  let pct ← pctOf e
  pure (barOf pct, Int.repr (pyTrunc (pct * 100)) ++ "%")

/-- The `try/except` of src/bot.py:53-62: on any exception the bar is the
textual placeholder `"Traitement..."` and the percentage falls back to the
preformatted `_percent_str` (stripped). Returns `(bar, pct_str)`. -/
def renderBar (e : ProgressEvent) : String × String :=
  match computeBar e with
  | Except.ok r => r
  | Except.error _ => ("Traitement...", pyStrip (e.percent_str.getD ""))

/-- The full text assembled by `_update_message` (src/bot.py:44-69). -/
def update_message_text (e : ProgressEvent) (finished : Bool) : String :=
  if finished then
    "✅ Download complete! Processing..."
  else
    "� **Downloading Video**\n\n" ++ (renderBar e).1 ++ " " ++ (renderBar e).2 ++
    "\n\n🚀 Speed: " ++ pyStrip (e.speed_str.getD "") ++
    "\n⏳ ETA: " ++ pyStrip (e.eta_str.getD "")

/-- The state of the `DownloadProgress` bridge (src/bot.py:27-32); the
opaque `message` and `loop` handles are not represented. -/
structure DownloadProgress where
  last_update : ℚ
  start_time : ℚ
deriving DecidableEq

/-- `DownloadProgress.__init__` at construction time `now`:
`last_update = 0`, `start_time = time.time()`. -/
def DownloadProgress.init (now : ℚ) : DownloadProgress :=
  { last_update := 0, start_time := now }

/-- `DownloadProgress.progress_hook` (src/bot.py:34-42), invoked at wall
time `t` on event `e`. Returns the new bridge state and whether a message
edit was scheduled (`asyncio.run_coroutine_threadsafe` on
`_update_message`). -/
def progress_hook (st : DownloadProgress) (t : ℚ) (e : ProgressEvent) :
    DownloadProgress × Bool :=
  match e.status with
  | DlStatus.downloading =>
      if t - st.last_update > 3 then ({ st with last_update := t }, true)
      else (st, false)
  | DlStatus.finished => (st, true)
  | DlStatus.other => (st, false)

/-- Deliver a timed sequence of progress events to the hook, counting the
message edits scheduled along the way. -/
def runHook : DownloadProgress → List (ℚ × ProgressEvent) → DownloadProgress × ℕ
  | st, [] => (st, 0)
  | st, (t, e) :: rest =>
    ((runHook (progress_hook st t e).1 rest).1,
     (if (progress_hook st t e).2 then 1 else 0) + (runHook (progress_hook st t e).1 rest).2)

/-- An in-progress event with every optional entry missing. -/
def plainDownloading : ProgressEvent :=
  ⟨DlStatus.downloading, none, none, none, none, none, none⟩

/-- Python `s.replace(c, '')` for a one-character pattern `c`: removes
every occurrence of that character. -/
def removeChar (c : Char) (s : String) : String :=
  String.mk (s.data.filter (fun a => a != c))

/-- The sanitisation applied to user-facing text
(src/bot.py:142,144,241,253): `.replace('*', '').replace('_', '').replace(`
backtick `, '')`, i.e. strip the three Markdown control characters. -/
def sanitize (s : String) : String :=
  removeChar backquoteChar (removeChar '_' (removeChar '*' s))

/-- The per-user session slot `context.user_data` (src/bot.py:113-114,176). -/
structure Session where
  url : Option String
  title : Option String
deriving DecidableEq

/-- One entry of `info['formats']` as read by `ask_quality`
(src/bot.py:122-123): `f.get('vcodec')` and `f.get('height')`.
For these, a missing key and a `None` value behave identically, so both
are `Option.none`. -/
structure MediaFormat where
  vcodec : Option String
  height : Option ℕ
deriving DecidableEq

/-- The metadata returned by the extractor, as read by the handlers.
String fields merge missing key and `None` into `none`. -/
structure MediaInfo where
  title : Option String
  uploader : Option String
  duration_string : Option String
  duration : Option ℕ
  formats : List MediaFormat
deriving DecidableEq

/-- The filter at src/bot.py:122: `f.get('vcodec') != 'none' and
f.get('height')` (a missing/`None` vcodec passes the inequality; a
missing, `None` or `0` height is falsy). -/
def heightOk (f : MediaFormat) : Bool :=
  (f.vcodec != some "none") && (match f.height with
    | some h => h != 0
    | none => false)

/-- The `resolutions` set built at src/bot.py:120-123: the distinct
eligible heights. A Python `set` is represented by the deduplicated list
of collected values; its iteration order is irrelevant because the list
is sorted before any use. -/
def resolutions (formats : List MediaFormat) : List ℕ :=
  (formats.filterMap (fun f => if heightOk f then f.height else none)).dedup

/-- `sorted_res = sorted(list(resolutions), reverse=True)`
(src/bot.py:125): the distinct heights in descending order. -/
def sorted_res (formats : List MediaFormat) : List ℕ :=
  List.insertionSort (· ≥ ·) (resolutions formats)

/-- The heights offered as video buttons: `sorted_res[:4]`
(src/bot.py:130). -/
def videoChoices (formats : List MediaFormat) : List ℕ :=
  (sorted_res formats).take 4

/-- The inline keyboard built at src/bot.py:128-138, as
(label, callback-data) pairs. -/
def buildKeyboard (sr : List ℕ) : List (String × String) :=
  (sr.take 4).map (fun r => ("🎬 Video " ++ Nat.repr r ++ "p", "video_" ++ Nat.repr r))
  ++ (if sr.isEmpty then [("🎬 Best Video", "video_best")] else [])
  ++ [("🎵 Audio Only (MP3)", "audio_best"), ("❌ Cancel", "cancel")]

/-- `info.get('duration_string') or info.get('duration')` rendered into
the caption (src/bot.py:143,149): Python string-formats the winning value
(`None` prints as "None"). -/
def durationDisp (ds : Option String) (d : Option ℕ) : String :=
  match ds with
  | some s =>
      if s ≠ "" then s
      else match d with
        | some n => Nat.repr n
        | none => "None"
  | none =>
      match d with
      | some n => Nat.repr n
      | none => "None"

/-- The quality-chooser caption of src/bot.py:142-151 (title and uploader
sanitised, duration not). -/
def analyzeCaption (info : MediaInfo) : String :=
  "🎥 **" ++ sanitize (info.title.getD "Video") ++ "**\n\n👤 Channel: "
  ++ sanitize (info.uploader.getD "Unknown") ++ "\n⏱ Duration: "
  ++ durationDisp info.duration_string info.duration
  ++ "\n\n⬇ Choose your download quality:"

/-- The outbound calls a handler makes, in order: chat-platform
operations and invocations of the extraction/download collaborator. -/
inductive Action where
  | answerQuery
  | deleteMsg
  | sendMsg (text : String)
  | editMsg (text : String)
  | editMsgMarkup (text : String) (buttons : List (String × String))
  | invokeExtract (url : String)
  | invokeDownload (url : String)
  | sendVideo (caption : String)
  | sendAudio (title : Option String) (caption : String)
deriving DecidableEq

/-- `ask_quality` (src/bot.py:97-157). Inputs: the message text `url`,
the current session, and the outcome of the off-loop
`extract_info(download=False)` call (an oracle: error message or
metadata). Returns the session afterwards and the trace of calls made.
The session is written (src/bot.py:113-114) only after extraction
returns; an extraction error leaves it untouched. -/
def ask_quality (url : String) (sess : Session) (ext : Except String MediaInfo) :
    Session × List Action :=
  if ¬ (url.startsWith "http://" || url.startsWith "https://") then
    (sess, [Action.sendMsg "⚠ That doesn't look like a valid URL."])
  else
    match ext with
    | Except.error e =>
        (sess, [Action.sendMsg "🔍 **Analyzing link...** Please wait.",
                Action.invokeExtract url,
                Action.editMsg ("❌ Failed to fetch video info.\nError: " ++ e)])
    | Except.ok info =>
        ({ url := some url, title := some (info.title.getD "Unknown Title") },
         [Action.sendMsg "🔍 **Analyzing link...** Please wait.",
          Action.invokeExtract url,
          Action.editMsgMarkup (analyzeCaption info)
            (buildKeyboard (sorted_res info.formats))])

/-- A filesystem snapshot: an association list of path ↦ size in bytes. -/
abbrev FS := List (String × ℕ)

/-- `os.path.exists` over the snapshot (`exists('')` is false in Python). -/
def pathExists (p : String) (fs : FS) : Bool :=
  (p != "") && fs.any (fun x => x.1 == p)

/-- `os.path.getsize` over the snapshot. -/
def getsize (p : String) (fs : FS) : ℕ :=
  match fs.find? (fun x => x.1 == p) with
  | some x => x.2
  | none => 0

/-- `os.remove` over the snapshot. -/
def removeFile (p : String) (fs : FS) : FS :=
  fs.filter (fun x => x.1 != p)

/-- The root part of `os.path.splitext`: split at the last dot of the
final path component, unless that component consists of leading dots up
to it (so `.bashrc` does not split). -/
def splitextBase (s : String) : String :=
  let cs := s.data
  let sep : ℤ := match (cs.reverse.findIdx? (fun c => c == '/')) with
    | some i => (cs.length : ℤ) - 1 - (i : ℤ)
    | none => -1
  let dot : ℤ := match (cs.reverse.findIdx? (fun c => c == '.')) with
    | some i => (cs.length : ℤ) - 1 - (i : ℤ)
    | none => -1
  if sep < dot ∧
      (List.range cs.length).any
        (fun j => decide (sep < (j : ℤ)) && decide ((j : ℤ) < dot)
          && (cs.getD j ' ' != '.')) then
    String.mk (cs.take dot.toNat)
  else s

/-- The probe list of src/bot.py:221. -/
def extCandidates : List String := [".mp4", ".mkv", ".webm", ".mp3"]

/-- The file-path resolution of src/bot.py:218-224: keep the prepared
name if it exists, otherwise try the fixed extensions in order on the
stem; if none exists, the prepared name stays (and the later existence
check fails). -/
def resolvePath (fp : String) (fs : FS) : String :=
  if pathExists fp fs then fp
  else
    match extCandidates.find? (fun ext => pathExists (splitextBase fp ++ ext) fs) with
    | some ext => splitextBase fp ++ ext
    | none => fp

/-- The sanitised upload caption of src/bot.py:241-242. -/
def uploadCaption (title : Option String) : String :=
  "🎬 " ++ sanitize (title.getD "Video") ++ "\nDownload by @MyDownloaderBot"

/-- The sanitised error report of src/bot.py:253-254. -/
def errorText (e : String) : String :=
  "❌ Error occurred: " ++ sanitize e

/-- src/bot.py:178. -/
def sessionExpiredText : String := "❌ Session expired. Please send the link again."

/-- The three calls every non-cancel, in-session click makes before the
download returns (src/bot.py:167,182,215). -/
def initActions (url : String) : List Action :=
  [Action.answerQuery, Action.editMsg "🚀 **Initializing download...**",
   Action.invokeDownload url]

/-- `button_click` (src/bot.py:165-263). Oracles: `dl` is the outcome of
the off-loop `download_sync` call (error message, or the prepared
filename plus metadata); `fs` is the filesystem snapshot when it
returns; `uploadErr` is an exception raised inside the upload block
(src/bot.py:239-246), `none` when the upload succeeds. Returns the trace
of calls and the final filesystem; the `finally` cleanup
(src/bot.py:256-263) is folded into each exit path. -/
def button_click (data : String) (sess : Session)
    (dl : Except String (String × MediaInfo)) (fs : FS)
    (uploadErr : Option String) : List Action × FS :=
  if data == "cancel" then
    ([Action.answerQuery, Action.deleteMsg], fs)
  else
    match sess.url with
    | none => ([Action.answerQuery, Action.editMsg sessionExpiredText], fs)
    | some url =>
      match dl with
      | Except.error e =>
          (initActions url ++ [Action.editMsg (errorText e)], fs)
      | Except.ok (fp0, info) =>
          if pathExists (resolvePath fp0 fs) fs = false then
            (initActions url ++
              [Action.editMsg (errorText "File not found after download.")], fs)
          else if 50 * 1024 * 1024 < getsize (resolvePath fp0 fs) fs then
            (initActions url ++
              [Action.editMsg "❌ File is too large (>50MB) to upload via Telegram Bot API."],
             removeFile (resolvePath fp0 fs) fs)
          else
            match uploadErr with
            | some e =>
                (initActions url ++
                  [Action.editMsg "📤 **Uploading to Telegram...**",
                   Action.editMsg (errorText e)],
                 removeFile (resolvePath fp0 fs) fs)
            | none =>
                (initActions url ++
                  [Action.editMsg "📤 **Uploading to Telegram...**",
                   (if data == "audio_best" then
                      Action.sendAudio info.title (uploadCaption info.title)
                    else Action.sendVideo (uploadCaption info.title)),
                   Action.deleteMsg],
                 removeFile (resolvePath fp0 fs) fs)

/-- Is the action an upload call (`send_video` / `send_audio`)? -/
def isUpload : Action → Bool
  | Action.sendVideo _ => true
  | Action.sendAudio _ _ => true
  | _ => false

/-- Is the action an invocation of the download collaborator? -/
def isDownloadCall : Action → Bool
  | Action.invokeDownload _ => true
  | _ => false

/-- The format list of the spec's worked example: heights
[1080, 1080, 720, 480, 240, 144], all with a real video codec. -/
def demoFormats : List MediaFormat :=
  [⟨some "avc1", some 1080⟩, ⟨some "avc1", some 1080⟩, ⟨some "avc1", some 720⟩,
   ⟨some "avc1", some 480⟩, ⟨some "avc1", some 240⟩, ⟨some "avc1", some 144⟩]

/-! ## Throttle behaviour of the Progress Bridge (claims C1, C10) -/

theorem runHook_no_edit :
    ∀ (l : List (ℚ × ProgressEvent)) (st : DownloadProgress),
      (∀ p ∈ l, p.2.status = DlStatus.downloading ∧ p.1 - st.last_update ≤ 3) →
      runHook st l = (st, 0) := by
  intro l
  induction l with
  | nil => intro st _; rfl
  | cons p rest ih =>
    intro st h
    obtain ⟨t, e⟩ := p
    obtain ⟨hs, hle⟩ := h (t, e) (List.mem_cons_self _ _)
    replace hs : e.status = DlStatus.downloading := hs
    replace hle : t - st.last_update ≤ 3 := hle
    have hhook : progress_hook st t e = (st, false) := by
      simp [progress_hook, hs, not_lt.mpr hle]
    have hrest : runHook st rest = (st, 0) :=
      ih st (fun q hq => h q (List.mem_cons_of_mem _ hq))
    simp [runHook, hhook, hrest]

/-- C1: for any sequence of in-progress events delivered within a window
of less than 3 seconds, at most one message edit is scheduled; the hook
only schedules an edit for an in-progress event when at least 3 seconds
have elapsed since the last recorded edit; and an event with status
finished always schedules exactly one edit, regardless of elapsed time
(and leaves the throttle state unchanged). -/
theorem throttle_c1 :
    (∀ (st : DownloadProgress) (t₀ : ℚ) (l : List (ℚ × ProgressEvent)),
        (∀ p ∈ l, p.2.status = DlStatus.downloading ∧ t₀ ≤ p.1 ∧ p.1 < t₀ + 3) →
        (runHook st l).2 ≤ 1)
  ∧ (∀ (st : DownloadProgress) (t : ℚ) (e : ProgressEvent),
        e.status = DlStatus.finished → progress_hook st t e = (st, true))
  ∧ (∀ (st : DownloadProgress) (t : ℚ) (e : ProgressEvent),
        e.status = DlStatus.downloading → (progress_hook st t e).2 = true →
        3 ≤ t - st.last_update) := by
  refine ⟨?_, ?_, ?_⟩
  · intro st t₀ l h
    induction l generalizing st with
    | nil => simp [runHook]
    | cons p rest ih =>
      obtain ⟨t, e⟩ := p
      obtain ⟨hs, ht0, ht3⟩ := h (t, e) (List.mem_cons_self _ _)
      replace hs : e.status = DlStatus.downloading := hs
      replace ht0 : t₀ ≤ t := ht0
      replace ht3 : t < t₀ + 3 := ht3
      by_cases hf : t - st.last_update > 3
      · have hhook : progress_hook st t e = ({ st with last_update := t }, true) := by
          simp [progress_hook, hs, hf]
        have hrest : runHook { st with last_update := t } rest =
            ({ st with last_update := t }, 0) := by
          refine runHook_no_edit rest _ (fun q hq => ?_)
          obtain ⟨hs', ht0', ht3'⟩ := h q (List.mem_cons_of_mem _ hq)
          refine ⟨hs', ?_⟩
          show q.1 - t ≤ 3
          linarith
        simp [runHook, hhook, hrest]
      · have hhook : progress_hook st t e = (st, false) := by
          simp [progress_hook, hs, hf]
        have hrest := ih st (fun q hq => h q (List.mem_cons_of_mem _ hq))
        simp [runHook, hhook]
        exact hrest
  · intro st t e hs
    simp [progress_hook, hs]
  · intro st t e hs hfire
    by_contra hlt
    push_neg at hlt
    have hcond : ¬ (3 < t - st.last_update) := by linarith
    simp [progress_hook, hs, hcond] at hfire

theorem throttle_c1_witness :
    (runHook ⟨0, 0⟩ [(100, plainDownloading), (101, plainDownloading)]).2 ≤ 1 :=
  throttle_c1.1 ⟨0, 0⟩ 100 _ (by
    intro p hp
    simp only [List.mem_cons, List.not_mem_nil, or_false] at hp
    rcases hp with rfl | rfl
    · exact ⟨rfl, by norm_num, by norm_num⟩
    · exact ⟨rfl, by norm_num, by norm_num⟩)

/-- C10: the first in-progress event after construction always schedules
an edit, however little wall time has elapsed since construction, because
`last_update` is initialised to 0 rather than to the construction time
(assuming only that the wall clock is past 3 seconds after the epoch). -/
theorem first_event_always_edits_c10 (c elapsed : ℚ) (e : ProgressEvent)
    (hs : e.status = DlStatus.downloading) (hc : 3 < c) (he : 0 ≤ elapsed) :
    (progress_hook (DownloadProgress.init c) (c + elapsed) e).2 = true := by
  have hcc : (3 : ℚ) < c + elapsed := by linarith
  simp [progress_hook, DownloadProgress.init, hs, hcc]

theorem first_event_always_edits_c10_witness :
    (progress_hook (DownloadProgress.init 10) (10 + 0) plainDownloading).2 = true :=
  first_event_always_edits_c10 10 0 plainDownloading rfl (by decide) (by decide)

/-! ## Renderer behaviour (claims C2, C8) -/

/-- C2 is false as stated: when the `total_bytes` KEY is missing from the
event (outer `none`), `d.get('total_bytes', 1)` yields the truthy default
1, the estimate is never consulted, and a bar is rendered with
denominator 1 — not the "processing" placeholder. Here the total-bytes
field is absent and the estimate (present but `None`) yields no usable
denominator, yet the bar branch is taken. -/
theorem render_placeholder_c2_counterexample :
    (⟨DlStatus.downloading, some (some 2), none, some none, none, none,
        none⟩ : ProgressEvent).total_bytes = none
    ∧ (⟨DlStatus.downloading, some (some 2), none, some none, none, none,
        none⟩ : ProgressEvent).total_bytes_estimate = some none
    ∧ (renderBar ⟨DlStatus.downloading, some (some 2), none, some none, none,
        none, none⟩).1 ≠ "Traitement..." := by
  refine ⟨rfl, rfl, ?_⟩
  norm_num [renderBar, computeBar, pctOf, dictGet, pyOr, truthy, pyFloat,
    pyDiv, barOf, pyTrunc, pyRepeat, Except.bind, bind, Except.map,
    Functor.map, pure, Except.pure]
  decide

/-- C2 (amended): for every in-progress event whose `total_bytes` entry is
present but `None` or zero, and whose `total_bytes_estimate` entry is
likewise present but `None` or zero, the renderer produces the textual
"processing" placeholder (`"Traitement..."`) with the preformatted
percentage as fallback, and (being a total function through the embedded
`try/except`) never raises. When the `total_bytes` key is missing
entirely, the code instead defaults the denominator to 1 and renders a
bar. -/
theorem render_placeholder_c2_amended (e : ProgressEvent)
    (ht : e.total_bytes = some none ∨ e.total_bytes = some (some 0))
    (hte : e.total_bytes_estimate = some none ∨
      e.total_bytes_estimate = some (some 0)) :
    renderBar e = ("Traitement...", pyStrip (e.percent_str.getD "")) := by
  obtain ⟨st, db, tb, te, ps, ss, es⟩ := e
  simp only [] at ht hte
  rcases ht with rfl | rfl <;> rcases hte with rfl | rfl <;>
    rcases db with _ | (_ | q) <;>
      simp [renderBar, computeBar, pctOf, dictGet, pyOr, truthy, pyFloat,
        pyDiv, Except.bind, bind, Except.map, Functor.map, pure, Except.pure]

theorem render_placeholder_c2_witness :
    renderBar ⟨DlStatus.downloading, some (some 3), some (some 0), some none,
      none, none, none⟩ = ("Traitement...", "") :=
  render_placeholder_c2_amended
    ⟨DlStatus.downloading, some (some 3), some (some 0), some none, none,
      none, none⟩ (Or.inr rfl) (Or.inl rfl)

/-- C8 is false as stated: when the computed fraction exceeds 1 (more
bytes downloaded than the reported total — possible since the denominator
may be an estimate or the defaulted 1), `int(15 * pct)` exceeds 15 while
the `'░'` part clamps at empty, so the bar is wider than 15 cells. Here
the bar branch is taken (fraction 2) and the bar has 30 cells. -/
theorem bar_width_c8_counterexample :
    pctOf ⟨DlStatus.downloading, some (some 2), some (some 1), none, none,
        none, none⟩ = Except.ok 2
    ∧ (renderBar ⟨DlStatus.downloading, some (some 2), some (some 1), none,
        none, none, none⟩).1.length = 30 := by
  constructor
  · norm_num [pctOf, dictGet, pyOr, truthy, pyFloat, pyDiv, Except.bind,
      bind, Except.map, Functor.map, pure, Except.pure]
  · norm_num [renderBar, computeBar, pctOf, dictGet, pyOr, truthy, pyFloat,
      pyDiv, barOf, pyTrunc, pyRepeat, Except.bind, bind, Except.map,
      Functor.map, pure, Except.pure]
    decide

/-- C8 (amended): whenever the renderer takes the bar-rendering branch and
the computed fraction lies in [0, 1], the block-character bar has exactly
15 cells; fractions above 1 produce proportionally wider bars. -/
theorem bar_width_c8_amended (e : ProgressEvent) (q : ℚ)
    (hq : pctOf e = Except.ok q) (h0 : 0 ≤ q) (h1 : q ≤ 1) :
    (renderBar e).1.length = 15 := by
  have hcb : computeBar e =
      Except.ok (barOf q, Int.repr (pyTrunc (q * 100)) ++ "%") := by
    simp [computeBar, hq, Except.bind, bind, Except.map, Functor.map, pure,
      Except.pure]
  have hnn : (0 : ℚ) ≤ 15 * q := by positivity
  have hfl : pyTrunc (15 * q) = ⌊(15 : ℚ) * q⌋ := if_pos hnn
  have h0' : (0 : ℤ) ≤ ⌊(15 : ℚ) * q⌋ := Int.floor_nonneg.mpr hnn
  have h15 : ⌊(15 : ℚ) * q⌋ ≤ 15 := by
    have h : (15 : ℚ) * q ≤ 15 := by linarith
    calc ⌊(15 : ℚ) * q⌋ ≤ ⌊(15 : ℚ)⌋ := Int.floor_le_floor h
    _ = 15 := by norm_num
  simp only [renderBar, hcb, barOf, hfl, pyRepeat]
  rw [String.length_append]
  simp only [String.length, List.length_replicate]
  omega

theorem bar_width_c8_witness :
    (renderBar ⟨DlStatus.downloading, some (some 1), some (some 2), none,
      none, none, none⟩).1.length = 15 :=
  bar_width_c8_amended
    ⟨DlStatus.downloading, some (some 1), some (some 2), none, none, none,
      none⟩ (1 / 2)
    (by norm_num [pctOf, dictGet, pyOr, truthy, pyFloat, pyDiv, Except.bind,
      bind, Except.map, Functor.map, pure, Except.pure])
    (by norm_num) (by norm_num)

/-! ## Sanitisation (claim C5) -/

theorem mem_removeChar {a c : Char} {s : String} :
    a ∈ (removeChar c s).data ↔ a ∈ s.data ∧ a ≠ c := by
  simp [removeChar, List.mem_filter, bne_iff_ne]

theorem mem_sanitize {a : Char} {s : String} :
    a ∈ (sanitize s).data ↔
      a ∈ s.data ∧ a ≠ '*' ∧ a ≠ '_' ∧ a ≠ backquoteChar := by
  simp [sanitize, mem_removeChar, and_assoc]

theorem notMem_sanitize {c : Char} (s : String)
    (hc : c = '*' ∨ c = '_' ∨ c = backquoteChar) : c ∉ (sanitize s).data := by
  intro hmem
  obtain ⟨-, h1, h2, h3⟩ := mem_sanitize.mp hmem
  rcases hc with rfl | rfl | rfl
  · exact h1 rfl
  · exact h2 rfl
  · exact h3 rfl

/-- C5: for any title and any error string, the rendered user-facing
outputs — the upload caption and the error message — contain no `*`, no
`_` and no backtick: the sanitisation removes every occurrence of all
three before they are embedded, and the surrounding literal text contains
none of them. -/
theorem sanitized_output_c5 (c : Char) (t : Option String) (e : String)
    (hc : c = '*' ∨ c = '_' ∨ c = backquoteChar) :
    c ∉ (uploadCaption t).data ∧ c ∉ (errorText e).data := by
  constructor
  · intro hmem
    simp only [uploadCaption, String.data_append, List.mem_append] at hmem
    rcases hmem with (h | h) | h
    · rcases hc with rfl | rfl | rfl <;> revert h <;> decide
    · exact notMem_sanitize _ hc h
    · rcases hc with rfl | rfl | rfl <;> revert h <;> decide
  · intro hmem
    simp only [errorText, String.data_append, List.mem_append] at hmem
    rcases hmem with h | h
    · rcases hc with rfl | rfl | rfl <;> revert h <;> decide
    · exact notMem_sanitize _ hc h

theorem sanitized_output_c5_witness :
    '_' ∉ (uploadCaption (some "my_video*title")).data ∧
    '_' ∉ (errorText "HTTP_Error *404*").data :=
  sanitized_output_c5 '_' (some "my_video*title") "HTTP_Error *404*"
    (Or.inr (Or.inl rfl))

/-! ## Quality choices (claim C6) -/

theorem sorted_res_pairwise_gt (fmts : List MediaFormat) :
    (sorted_res fmts).Pairwise (· > ·) := by
  have hsorted : (sorted_res fmts).Sorted (· ≥ ·) :=
    List.sorted_insertionSort _ _
  have hnodup : (sorted_res fmts).Nodup :=
    (List.perm_insertionSort _ _).nodup_iff.mpr (List.nodup_dedup _)
  exact (hsorted.and hnodup).imp (fun h => h.1.lt_of_ne h.2.symm)

theorem mem_sorted_res {h : ℕ} {fmts : List MediaFormat} :
    h ∈ sorted_res fmts ↔ h ∈ resolutions fmts := by
  unfold sorted_res
  exact (List.perm_insertionSort _ _).mem_iff

/-- C6: the presented video-quality choices are distinct height values in
strictly descending order, at most 4 of them, each drawn from the
eligible heights of the format list; any eligible height left out is
smaller than every presented one; and on the spec's worked example
(heights 1080, 1080, 720, 480, 240, 144) the choices are exactly
[1080, 720, 480, 240]. -/
theorem quality_choices_c6 :
    (∀ fmts : List MediaFormat, (videoChoices fmts).Pairwise (· > ·))
  ∧ (∀ fmts : List MediaFormat, (videoChoices fmts).length ≤ 4)
  ∧ (∀ (fmts : List MediaFormat) (h : ℕ),
      h ∈ videoChoices fmts → h ∈ resolutions fmts)
  ∧ (∀ (fmts : List MediaFormat) (h x : ℕ), h ∈ resolutions fmts →
      h ∉ videoChoices fmts → x ∈ videoChoices fmts → h < x)
  ∧ videoChoices demoFormats = [1080, 720, 480, 240] := by
  refine ⟨?_, ?_, ?_, ?_, by decide⟩
  · intro fmts
    exact List.Pairwise.sublist (List.take_sublist _ _) (sorted_res_pairwise_gt fmts)
  · intro fmts
    exact List.length_take_le _ _
  · intro fmts h hmem
    exact mem_sorted_res.mp ((List.take_sublist _ _).subset hmem)
  · intro fmts h x hres hnot hx
    have hp := sorted_res_pairwise_gt fmts
    rw [← List.take_append_drop 4 (sorted_res fmts)] at hp
    have hcross := (List.pairwise_append.mp hp).2.2
    have hh : h ∈ (sorted_res fmts).take 4 ∨ h ∈ (sorted_res fmts).drop 4 := by
      rw [← List.mem_append, List.take_append_drop]
      exact mem_sorted_res.mpr hres
    rcases hh with hh | hh
    · exact absurd hh hnot
    · exact hcross x hx h hh

theorem quality_choices_c6_witness :
    (144 : ℕ) ∈ resolutions demoFormats ∧
    (144 : ℕ) ∉ videoChoices demoFormats ∧
    (240 : ℕ) ∈ videoChoices demoFormats ∧ (144 : ℕ) < 240 :=
  ⟨by decide, by decide, by decide,
   quality_choices_c6.2.2.2.1 demoFormats 144 240 (by decide) (by decide)
     (by decide)⟩

/-! ## Analysis-step session atomicity (claim C9) -/

/-- C9: if the metadata-extraction call throws during analysis, the
session store is returned unchanged — URL and title from any previous
successful analysis remain, because the session is only written after
extraction succeeds. -/
theorem session_unchanged_c9 (url : String) (sess : Session) (e : String) :
    (ask_quality url sess (Except.error e)).1 = sess := by
  unfold ask_quality
  split
  · rfl
  · rfl

/-! ## Button-click orchestration (claims C3, C4, C7) -/

theorem pathExists_removeFile (p : String) (fs : FS) :
    pathExists p (removeFile p fs) = false := by
  have hany : ((removeFile p fs).any (fun x => x.1 == p)) = false := by
    rw [List.any_eq_false]
    intro x hx
    have hne := (List.mem_filter.mp hx).2
    rw [bne_iff_ne] at hne
    simp [hne]
  simp [pathExists, hany]

/-- C7: a button click other than cancel arriving when the session holds
no URL yields the "session expired" edit (and nothing else after the
query acknowledgement), and the download collaborator is never invoked. -/
theorem session_expired_c7 (data : String) (sess : Session)
    (dl : Except String (String × MediaInfo)) (fs : FS)
    (uploadErr : Option String)
    (hc : data ≠ "cancel") (hu : sess.url = none) :
    (button_click data sess dl fs uploadErr).1 =
      [Action.answerQuery, Action.editMsg sessionExpiredText]
    ∧ (button_click data sess dl fs uploadErr).1.all
        (fun a => !(isDownloadCall a)) = true := by
  have hcb : (data == "cancel") = false := beq_eq_false_iff_ne.mpr hc
  obtain ⟨su, stt⟩ := sess
  replace hu : su = none := hu
  subst hu
  constructor
  · simp [button_click, hcb]
  · simp [button_click, hcb, isDownloadCall]

theorem session_expired_c7_witness :
    (button_click "video_720" ⟨none, none⟩ (Except.error "boom") [] none).1 =
      [Action.answerQuery, Action.editMsg sessionExpiredText]
    ∧ (button_click "video_720" ⟨none, none⟩ (Except.error "boom") [] none).1.all
        (fun a => !(isDownloadCall a)) = true :=
  session_expired_c7 "video_720" ⟨none, none⟩ (Except.error "boom") [] none
    (by decide) rfl

/-- C3: when the downloaded file exists and its size exceeds the 50 MiB
ceiling, the click's trace contains no upload call (`send_video` /
`send_audio`) and the oversized file is no longer on the filesystem
afterwards. -/
theorem size_ceiling_c3 (data : String) (sess : Session) (url : String)
    (fp0 : String) (info : MediaInfo) (fs : FS) (uploadErr : Option String)
    (hu : sess.url = some url) (hc : data ≠ "cancel")
    (hex : pathExists (resolvePath fp0 fs) fs = true)
    (hsize : 50 * 1024 * 1024 < getsize (resolvePath fp0 fs) fs) :
    (button_click data sess (Except.ok (fp0, info)) fs uploadErr).1.all
        (fun a => !(isUpload a)) = true
    ∧ pathExists (resolvePath fp0 fs)
        ((button_click data sess (Except.ok (fp0, info)) fs uploadErr).2) = false := by
  have hcb : (data == "cancel") = false := beq_eq_false_iff_ne.mpr hc
  obtain ⟨su, stt⟩ := sess
  replace hu : su = some url := hu
  subst hu
  constructor
  · simp [button_click, hcb, hex, hsize, initActions, isUpload]
  · simp [button_click, hcb, hex, hsize, pathExists_removeFile]

theorem size_ceiling_c3_witness :
    (button_click "video_720" ⟨some "https://v.example/w", none⟩
        (Except.ok ("downloads/x.mp4", ⟨some "T", none, none, none, []⟩))
        [("downloads/x.mp4", 52428801)] none).1.all
        (fun a => !(isUpload a)) = true
    ∧ pathExists (resolvePath "downloads/x.mp4" [("downloads/x.mp4", 52428801)])
        ((button_click "video_720" ⟨some "https://v.example/w", none⟩
          (Except.ok ("downloads/x.mp4", ⟨some "T", none, none, none, []⟩))
          [("downloads/x.mp4", 52428801)] none).2) = false :=
  size_ceiling_c3 "video_720" ⟨some "https://v.example/w", none⟩
    "https://v.example/w" "downloads/x.mp4" ⟨some "T", none, none, none, []⟩
    [("downloads/x.mp4", 52428801)] none rfl (by decide) (by decide) (by decide)

/-- C4: whatever happens after a completed download — missing file,
size-ceiling rejection, an exception from the upload, or success — the
file at the resolved path does not exist on the filesystem when the
handler finishes: the cleanup step runs on every exit path. -/
theorem cleanup_c4 (data : String) (sess : Session) (url : String)
    (fp0 : String) (info : MediaInfo) (fs : FS) (uploadErr : Option String)
    (hu : sess.url = some url) (hc : data ≠ "cancel") :
    pathExists (resolvePath fp0 fs)
      ((button_click data sess (Except.ok (fp0, info)) fs uploadErr).2) = false := by
  have hcb : (data == "cancel") = false := beq_eq_false_iff_ne.mpr hc
  obtain ⟨su, stt⟩ := sess
  replace hu : su = some url := hu
  subst hu
  by_cases hex : pathExists (resolvePath fp0 fs) fs = false
  · simp [button_click, hcb, hex]
  · have hex' : pathExists (resolvePath fp0 fs) fs = true := by
      revert hex
      cases pathExists (resolvePath fp0 fs) fs <;> simp
    by_cases hsz : 50 * 1024 * 1024 < getsize (resolvePath fp0 fs) fs
    · simp [button_click, hcb, hex', hsz, pathExists_removeFile]
    · rcases uploadErr with _ | e <;>
        simp [button_click, hcb, hex', hsz, pathExists_removeFile]

theorem cleanup_c4_witness :
    pathExists (resolvePath "downloads/y.mp4" [("downloads/y.webm", 1000)])
      ((button_click "audio_best" ⟨some "https://v.example/z", some "Z"⟩
        (Except.ok ("downloads/y.mp4", ⟨some "Z", none, none, none, []⟩))
        [("downloads/y.webm", 1000)] (some "Timed out")).2) = false :=
  cleanup_c4 "audio_best" ⟨some "https://v.example/z", some "Z"⟩
    "https://v.example/z" "downloads/y.mp4" ⟨some "Z", none, none, none, []⟩
    [("downloads/y.webm", 1000)] (some "Timed out") rfl (by decide)

end DownloaderBot
